import Mathlib

/-!
# Verification of the credential/connection model and role-based access policy

Shallow embedding of the parts of the dashboard with actual invariants:
the `has_role` SQL predicate and the row-level policies of the
`20260205170216` migration, the connection prober `testConnection` and the
`handleSave`/`handleDisconnect` handlers of `ClientSupabaseConfig.tsx`, the
Meta-credential `handleSave` of `Configuracao.tsx`, and the admin webhook
manager (`AdminWebhooks`).

Stateful React handlers are embedded as explicit state-passing functions:
each handler takes the component state and a model of the primary data
store and returns the new state, the new store, the toasts it raised, and
counters for the store writes / external network calls it issued.  `setX`
calls are modelled as taking effect sequentially in the returned component
state; a handler reading a state const, however, sees the render-time
value its closure captured, which `setX` does not change.  Store writes are
modelled as always succeeding (the `if (error) throw` paths are the
store's failure injection, out of scope of the claims below).
-/

/-! ## Role policy (migration 20260205170216)

`app_role` enum and the `user_roles` table. -/

inductive AppRole where
  | admin
  | user
deriving DecidableEq, Repr

structure UserRoleRow where
  user_id : String
  role : AppRole
deriving DecidableEq, Repr

/-- The SQL function `has_role(_user_id, _role)`: `SELECT EXISTS (SELECT 1 FROM user_roles
WHERE user_id = _user_id AND role = _role)`.  A total boolean function of
the table contents: the embedding returns `Bool`, never an exception. -/
def has_role (user_roles : List UserRoleRow) (uid : String) (r : AppRole) : Bool :=
  user_roles.any (fun row => row.user_id == uid && row.role == r)

/-! ## Row-level policies on `webhook_urls` (same migration) -/

structure WebhookRow where
  id : String
  user_id : String
  webhook_url : String
  created_at : Option String
  created_by_admin : Bool
deriving DecidableEq, Repr

/-- Policy "Users can view own webhook":
`USING (auth.uid() = user_id OR public.has_role(auth.uid(), 'admin'))`. -/
def canSelectWebhook (user_roles : List UserRoleRow) (uid : String) (row : WebhookRow) : Bool :=
  uid == row.user_id || has_role user_roles uid AppRole.admin

/-- Policy "Admins can insert webhooks":
`WITH CHECK (public.has_role(auth.uid(), 'admin'))`. -/
def canInsertWebhook (user_roles : List UserRoleRow) (uid : String) : Bool :=
  has_role user_roles uid AppRole.admin

/-- Policy "Admins can delete webhooks":
`USING (public.has_role(auth.uid(), 'admin'))`. -/
def canDeleteWebhook (user_roles : List UserRoleRow) (uid : String) (_row : WebhookRow) : Bool :=
  has_role user_roles uid AppRole.admin

/-! ## Admin webhook view gating (`AdminWebhooks`) -/

/-- What the `AdminWebhooks` page renders at top level: the loading
spinner while `adminLoading`, a `<Navigate to="/dashboard" replace />`
when `!isAdmin`, and the admin page otherwise.  There is no
permission-error rendering. -/
inductive AdminView where
  | loadingSpinner
  | redirect (target : String)
  | adminPage
deriving DecidableEq, Repr

/-- The early-return structure of `AdminWebhooks`:
`if (adminLoading) return <spinner/>; if (!isAdmin) return <Navigate
to="/dashboard" replace />;` else the admin page. -/
def renderAdminWebhooks (adminLoading : Bool) (isAdmin : Bool) : AdminView :=
  if adminLoading then AdminView.loadingSpinner
  else if !isAdmin then AdminView.redirect "/dashboard"
  else AdminView.adminPage

/-- Modelled from the spec: the `useAdmin` hook (its source file is not in
the repository snapshot; only its caller `AdminWebhooks` is).  Per the
spec, the component is gated on `has_role(caller, admin)`, so the hook's
`isAdmin` is the role policy evaluated for the caller. -/
def useAdminIsAdmin (user_roles : List UserRoleRow) (uid : String) : Bool :=
  has_role user_roles uid AppRole.admin

/-! ## Connection prober (`ClientSupabaseConfig.testConnection`) -/

/-- JS `String.prototype.includes`: substring containment on the character
lists of the strings. -/
def containsSub (needle : List Char) : List Char → Bool
  | [] => needle.isEmpty
  | c :: cs => needle.isPrefixOf (c :: cs) || containsSub needle cs

/-- The check `error.message.includes('Invalid API key')`. -/
def msgIndicatesInvalidKey (msg : String) : Bool :=
  containsSub "Invalid API key".data msg.data

/-- One character of the regex character class `[a-z0-9-]`. -/
def urlPatternChar (c : Char) : Bool :=
  c.isLower || c.isDigit || c == '-'

/-- The anchored regex `/^https:\/\/[a-z0-9-]+\.supabase\.co$/`: the
string is `https://` ++ (a non-empty run of `[a-z0-9-]` characters) ++
`.supabase.co`. -/
def matchesUrlPattern (url : String) : Bool :=
  let cs := url.data
  let pre := "https://".data
  let suf := ".supabase.co".data
  decide (pre.length + suf.length < cs.length)
    && pre.isPrefixOf cs
    && suf.isSuffixOf cs
    && ((cs.drop pre.length).take (cs.length - (pre.length + suf.length))).all urlPatternChar

inductive ConnectionStatus where
  | disconnected
  | connecting
  | connected
  | error
deriving DecidableEq, Repr

/-- An error value carried by the store SDK response or a thrown
exception; only its `message` is inspected. -/
structure ProbeError where
  message : String
deriving DecidableEq, Repr

/-- Outcome of `createClient(url, key)` followed by
`from('_test_connection_').select('*').limit(1)`: either a response whose
`error` field is `null` or an error object, or a thrown exception caught
by the surrounding `catch`. -/
inductive ProbeOutcome where
  | response (error : Option ProbeError)
  | thrown (error : ProbeError)
deriving DecidableEq, Repr

/-- The error message of a probe outcome, when there is one. -/
def ProbeOutcome.errMsg : ProbeOutcome → Option String
  | .response none => none
  | .response (some e) => some e.message
  | .thrown e => some e.message

/-- The two pieces of component state `testConnection` writes:
`connectionStatus` and `connectionError`. -/
structure TCState where
  connectionStatus : ConnectionStatus
  connectionError : Option String
deriving DecidableEq, Repr

/-- Result of a `testConnection` run: its boolean return value, the state
it leaves behind, and whether it reached the network (created a transient
client and issued the probe query). -/
structure TCResult where
  retVal : Bool
  state : TCState
  networkCalled : Bool
deriving DecidableEq, Repr

/-- The prober `testConnection(url, key)` of `ClientSupabaseConfig`.  The probe
oracle stands for the network: what the transient client's query yields
for the given pair.  Branch by branch: empty `url` or `key` ⇒
`disconnected`, return false, no network; URL-pattern mismatch ⇒ `error`
with the format message, no network; otherwise probe, and classify:
a response error or thrown exception whose message includes
`Invalid API key` ⇒ `error` with the invalid-key message, return false;
any other error, or no error ⇒ `connected`, clear `connectionError`,
return true. -/
def testConnection (probe : String → String → ProbeOutcome)
    (url key : String) (s : TCState) : TCResult :=
  if url = "" ∨ key = "" then
    { retVal := false
      state := { s with connectionStatus := ConnectionStatus.disconnected }
      networkCalled := false }
  else if matchesUrlPattern url = false then
    { retVal := false
      state := { connectionStatus := ConnectionStatus.error
                 connectionError :=
                   some "Formato de URL inválido. Use: https://xxxxx.supabase.co" }
      networkCalled := false }
  else
    match probe url key with
    | ProbeOutcome.response (some e) =>
      if msgIndicatesInvalidKey e.message then
        { retVal := false
          state := { connectionStatus := ConnectionStatus.error
                     connectionError := some "Chave de API inválida" }
          networkCalled := true }
      else
        { retVal := true
          state := { connectionStatus := ConnectionStatus.connected
                     connectionError := none }
          networkCalled := true }
    | ProbeOutcome.response none =>
        { retVal := true
          state := { connectionStatus := ConnectionStatus.connected
                     connectionError := none }
          networkCalled := true }
    | ProbeOutcome.thrown e =>
      if msgIndicatesInvalidKey e.message then
        { retVal := false
          state := { connectionStatus := ConnectionStatus.error
                     connectionError := some "Chave de API inválida" }
          networkCalled := true }
      else
        { retVal := true
          state := { connectionStatus := ConnectionStatus.connected
                     connectionError := none }
          networkCalled := true }

/-! ## Primary data store -/

structure ProfileRow where
  id : String
  email : Option String
  client_supabase_url : Option String
  client_supabase_key : Option String
deriving DecidableEq, Repr

structure MetaCredRow where
  user_id : String
  pixel_id : String
  page_id : Option String
  access_token : String
deriving DecidableEq, Repr

/-- The three relations the handlers under verification touch. -/
structure Store where
  profiles : List ProfileRow
  meta_credentials : List MetaCredRow
  webhook_urls : List WebhookRow
deriving DecidableEq, Repr

/-- A toast notification: title and description. -/
structure Toast where
  title : String
  description : String
deriving DecidableEq, Repr

/-- The update `supabase.from('profiles').update({client_supabase_url: u,
client_supabase_key: k}).eq('id', uid)`. -/
def updateProfilePointer (store : Store) (uid : String) (u k : Option String) : Store :=
  { store with
      profiles := store.profiles.map fun p =>
        if p.id = uid then { p with client_supabase_url := u, client_supabase_key := k }
        else p }

/-! ## `ClientSupabaseConfig.handleSave` / `handleDisconnect` -/

/-- Component state of `ClientSupabaseConfig` touched by the handlers. -/
structure ClientConfigState where
  credentials_url : String
  credentials_key : String
  isSaving : Bool
  connectionStatus : ConnectionStatus
  connectionError : Option String
  hasExistingConfig : Bool
deriving DecidableEq, Repr

/-- Result of `handleSave`/`handleDisconnect`: new component state, new
primary store, toasts raised, number of writes issued to the primary
store, and number of network calls to the external (client-owned)
endpoint. -/
structure ClientSaveResult where
  state : ClientConfigState
  store : Store
  toasts : List Toast
  profileWrites : Nat
  externalCalls : Nat
deriving DecidableEq, Repr

/-- Handler `handleSave` of `ClientSupabaseConfig`: bail out when no user is
signed in; reject empty url/key with the required-fields toast; run
`testConnection` and, when it returns false, toast
`connectionError || 'Não foi possível conectar ao Supabase.'` and stop;
otherwise update the signed-in user's profile pointer, run
`provisionTables` (one query against the external endpoint plus the
reminder toast), and toast success.  The failure toast reads the
`connectionError` const captured by the handler's closure at render time
— the value from BEFORE this save (`s.connectionError`); the
`setConnectionError` calls inside `testConnection` update the component
state for the next render (`s2`) but not that closure binding. -/
def handleSaveClientConfig (probe : String → String → ProbeOutcome)
    (user : Option String) (s : ClientConfigState) (store : Store) : ClientSaveResult :=
  match user with
  | none => { state := s, store := store, toasts := [], profileWrites := 0, externalCalls := 0 }
  | some uid =>
    if s.credentials_url = "" ∨ s.credentials_key = "" then
      { state := s, store := store
        toasts := [⟨"Campos obrigatórios", "Preencha a URL e a chave do Supabase."⟩]
        profileWrites := 0, externalCalls := 0 }
    else
      let s1 := { s with isSaving := true }
      let tc := testConnection probe s.credentials_url s.credentials_key
        { connectionStatus := s1.connectionStatus, connectionError := s1.connectionError }
      let s2 := { s1 with
                    connectionStatus := tc.state.connectionStatus
                    connectionError := tc.state.connectionError }
      if tc.retVal = false then
        { state := { s2 with isSaving := false }, store := store
          toasts := [⟨"Falha na conexão",
                      s.connectionError.getD "Não foi possível conectar ao Supabase."⟩]
          profileWrites := 0
          externalCalls := if tc.networkCalled then 1 else 0 }
      else
        { state := { s2 with isSaving := false, hasExistingConfig := true }
          store := updateProfilePointer store uid
                     (some s.credentials_url) (some s.credentials_key)
          toasts :=
            [⟨"Atenção",
              "Lembre-se de criar as tabelas meta_credentials, webhook_urls e events no seu Supabase."⟩,
             ⟨"Configuração salva!", "Seu Supabase foi conectado com sucesso."⟩]
          profileWrites := 1
          externalCalls := (if tc.networkCalled then 1 else 0) + 1 }

/-- Handler `handleDisconnect` of `ClientSupabaseConfig`: bail out when no user is
signed in; otherwise null both pointer fields on the signed-in user's
profile row, reset the form state, and toast. -/
def handleDisconnect (user : Option String) (s : ClientConfigState) (store : Store) :
    ClientSaveResult :=
  match user with
  | none => { state := s, store := store, toasts := [], profileWrites := 0, externalCalls := 0 }
  | some uid =>
    { state := { credentials_url := "", credentials_key := "", isSaving := false
                 connectionStatus := ConnectionStatus.disconnected
                 connectionError := none, hasExistingConfig := false }
      store := updateProfilePointer store uid none none
      toasts := [⟨"Desconectado", "Seu Supabase foi desconectado. Você pode conectar outro."⟩]
      profileWrites := 1
      externalCalls := 0 }

/-! ## `Configuracao.handleSave` (Meta credentials) -/

/-- The form fields of the Meta credential card. -/
structure MetaFormState where
  pixel_id : String
  page_id : String
  access_token : String
deriving DecidableEq, Repr

/-- Component state of `Configuracao` touched by `handleSave`. -/
structure ConfigState where
  credentials : MetaFormState
  isSaving : Bool
  hasExistingCredentials : Bool
deriving DecidableEq, Repr

structure MetaSaveResult where
  state : ConfigState
  store : Store
  toasts : List Toast
  storeWrites : Nat
deriving DecidableEq, Repr

/-- The expression `credentials.page_id || null`: the empty string is falsy. -/
def pageIdOrNull (pid : String) : Option String :=
  if pid = "" then none else some pid

/-- Handler `handleSave` of `Configuracao`: bail out when no user is signed in;
reject empty `pixel_id` or `access_token` with the required-fields toast
before any store call; otherwise upsert keyed on the
`hasExistingCredentials` flag — update the signed-in user's row in place,
or insert a fresh row and flip the flag. -/
def handleSaveMeta (user : Option String) (s : ConfigState) (store : Store) : MetaSaveResult :=
  match user with
  | none => { state := s, store := store, toasts := [], storeWrites := 0 }
  | some uid =>
    if s.credentials.pixel_id = "" ∨ s.credentials.access_token = "" then
      { state := s, store := store
        toasts := [⟨"Campos obrigatórios", "Pixel ID e Access Token são obrigatórios."⟩]
        storeWrites := 0 }
    else
      let s1 := { s with isSaving := true }
      if s.hasExistingCredentials then
        { state := { s1 with isSaving := false }
          store := { store with
                       meta_credentials := store.meta_credentials.map fun row =>
                         if row.user_id = uid then
                           { row with
                               pixel_id := s.credentials.pixel_id
                               page_id := pageIdOrNull s.credentials.page_id
                               access_token := s.credentials.access_token }
                         else row }
          toasts := [⟨"Salvo com sucesso!", "Suas credenciais foram atualizadas."⟩]
          storeWrites := 1 }
      else
        { state := { s1 with isSaving := false, hasExistingCredentials := true }
          store := { store with
                       meta_credentials := store.meta_credentials ++
                         [{ user_id := uid
                            pixel_id := s.credentials.pixel_id
                            page_id := pageIdOrNull s.credentials.page_id
                            access_token := s.credentials.access_token }] }
          toasts := [⟨"Salvo com sucesso!", "Suas credenciais foram atualizadas."⟩]
          storeWrites := 1 }

/-- The `meta_credentials` rows belonging to `uid`. -/
def rowsFor (store : Store) (uid : String) : List MetaCredRow :=
  store.meta_credentials.filter fun row => row.user_id == uid

/-- The `meta_credentials` row that a save with form fields `c` for user
`uid` writes (insert) or rewrites every matching row to (update). -/
def metaTarget (uid : String) (c : MetaFormState) : MetaCredRow :=
  { user_id := uid, pixel_id := c.pixel_id, page_id := pageIdOrNull c.page_id
    access_token := c.access_token }

/-! ## `AdminWebhooks.handleAddWebhook` -/

/-- Component state of `AdminWebhooks` touched by `handleAddWebhook`:
the loaded webhook listing and the two form fields. -/
structure AdminState where
  webhooks : List WebhookRow
  selectedUserId : String
  webhookUrl : String
  isSaving : Bool
deriving DecidableEq, Repr

structure AdminAddResult where
  state : AdminState
  store : Store
  toasts : List Toast
  insertCalls : Nat
deriving DecidableEq, Repr

/-- Handler `handleAddWebhook` of `AdminWebhooks`: reject an empty selection or
URL with the required-fields toast; reject a selected user who already has
a webhook in the loaded listing with the already-exists toast; otherwise
insert the row (`created_by_admin: true`; the store supplies `newId` and
`created_at`), prepend it to the listing, and clear the form.  No store
call is made on either rejection path. -/
def handleAddWebhook (newId : String) (createdAt : Option String)
    (s : AdminState) (store : Store) : AdminAddResult :=
  if s.selectedUserId = "" ∨ s.webhookUrl = "" then
    { state := s, store := store
      toasts := [⟨"Campos obrigatórios", "Selecione um usuário e insira a URL do webhook."⟩]
      insertCalls := 0 }
  else
    match s.webhooks.find? (fun w => w.user_id == s.selectedUserId) with
    | some _ =>
      { state := s, store := store
        toasts := [⟨"Usuário já possui webhook",
                    "Este usuário já tem um webhook cadastrado. Delete o existente primeiro."⟩]
        insertCalls := 0 }
    | none =>
      let newRow : WebhookRow :=
        { id := newId, user_id := s.selectedUserId, webhook_url := s.webhookUrl
          created_at := createdAt, created_by_admin := true }
      { state := { s with
                     webhooks := newRow :: s.webhooks
                     selectedUserId := "", webhookUrl := "", isSaving := false }
        store := { store with webhook_urls := store.webhook_urls ++ [newRow] }
        toasts := [⟨"Webhook adicionado!", "O webhook foi cadastrado com sucesso."⟩]
        insertCalls := 1 }

/-! ## Theorems -/

/-- C2: for every (user_id, role) pair, `has_role` returns `false` when no
matching row exists in `user_roles`.  The embedding is a total `Bool`
function (an `EXISTS` over the table), so absence of a role is a normal
value, never an exception. -/
theorem has_role_default_deny (db : List UserRoleRow) (uid : String) (r : AppRole)
    (h : ∀ row ∈ db, ¬(row.user_id = uid ∧ row.role = r)) :
    has_role db uid r = false := by
  simp only [has_role, List.any_eq_false, Bool.and_eq_true, beq_iff_eq]
  intro row hrow
  intro hc
  exact h row hrow ⟨hc.1, hc.2⟩

/-- Closed instance of `has_role_default_deny`: a table holding only an
`admin` role for `"u2"` gives no role to `"u1"`. -/
theorem has_role_default_deny_witness :
    (∀ row ∈ [UserRoleRow.mk "u2" AppRole.admin], ¬(row.user_id = "u1" ∧ row.role = AppRole.admin)) ∧
    has_role [UserRoleRow.mk "u2" AppRole.admin] "u1" AppRole.admin = false :=
  ⟨by decide, has_role_default_deny [UserRoleRow.mk "u2" AppRole.admin] "u1" AppRole.admin (by decide)⟩

/-- C1: a caller for whom `has_role(caller, admin)` is false is redirected
from the admin webhook view to the dashboard (not shown a permission
error), and the row-level policies let such a caller neither list, insert,
nor delete a webhook row belonging to another user. -/
theorem non_admin_locked_out (db : List UserRoleRow) (uid : String) (other : WebhookRow)
    (hrole : has_role db uid AppRole.admin = false)
    (hother : other.user_id ≠ uid) :
    renderAdminWebhooks false (useAdminIsAdmin db uid) = AdminView.redirect "/dashboard" ∧
    canSelectWebhook db uid other = false ∧
    canInsertWebhook db uid = false ∧
    canDeleteWebhook db uid other = false := by
  refine ⟨?_, ?_, ?_, ?_⟩
  · simp [renderAdminWebhooks, useAdminIsAdmin, hrole]
  · simp [canSelectWebhook, hrole, beq_eq_false_iff_ne]
    exact fun h => hother h.symm
  · simpa [canInsertWebhook] using hrole
  · simpa [canDeleteWebhook] using hrole

/-- Closed instance of `non_admin_locked_out`: with an empty role table,
caller `"u1"` is redirected and denied on a webhook row of `"u2"`. -/
theorem non_admin_locked_out_witness :
    has_role [] "u1" AppRole.admin = false ∧
    (WebhookRow.mk "w1" "u2" "https://hook.example.com/x" none true).user_id ≠ "u1" ∧
    (renderAdminWebhooks false (useAdminIsAdmin [] "u1") = AdminView.redirect "/dashboard" ∧
     canSelectWebhook [] "u1" (WebhookRow.mk "w1" "u2" "https://hook.example.com/x" none true) = false ∧
     canInsertWebhook [] "u1" = false ∧
     canDeleteWebhook [] "u1" (WebhookRow.mk "w1" "u2" "https://hook.example.com/x" none true) = false) :=
  ⟨by decide, by decide,
    non_admin_locked_out [] "u1" (WebhookRow.mk "w1" "u2" "https://hook.example.com/x" none true)
      (by decide) (by decide)⟩

/-- C3: classification of the probe response once a probe is actually
issued (non-empty url/key, pattern match).  An error whose message
includes `Invalid API key` (whether carried by the response or thrown)
yields status `error`; any other error yields `connected`; no error
yields `connected`. -/
theorem probe_error_classification (o : ProbeOutcome) (url key : String) (s : TCState)
    (hu : url ≠ "") (hk : key ≠ "") (hp : matchesUrlPattern url = true) :
    (∀ m, ProbeOutcome.errMsg o = some m → msgIndicatesInvalidKey m = true →
      (testConnection (fun _ _ => o) url key s).state.connectionStatus =
        ConnectionStatus.error) ∧
    (∀ m, ProbeOutcome.errMsg o = some m → msgIndicatesInvalidKey m = false →
      (testConnection (fun _ _ => o) url key s).state.connectionStatus =
        ConnectionStatus.connected) ∧
    (ProbeOutcome.errMsg o = none →
      (testConnection (fun _ _ => o) url key s).state.connectionStatus =
        ConnectionStatus.connected) := by
  refine ⟨?_, ?_, ?_⟩
  · intro m hm hinv
    cases o with
    | response err =>
      cases err with
      | none => simp [ProbeOutcome.errMsg] at hm
      | some e =>
        simp only [ProbeOutcome.errMsg, Option.some.injEq] at hm
        subst hm
        simp [testConnection, hu, hk, hp, hinv]
    | thrown e =>
      simp only [ProbeOutcome.errMsg, Option.some.injEq] at hm
      subst hm
      simp [testConnection, hu, hk, hp, hinv]
  · intro m hm hinv
    cases o with
    | response err =>
      cases err with
      | none => simp [ProbeOutcome.errMsg] at hm
      | some e =>
        simp only [ProbeOutcome.errMsg, Option.some.injEq] at hm
        subst hm
        simp [testConnection, hu, hk, hp, hinv]
    | thrown e =>
      simp only [ProbeOutcome.errMsg, Option.some.injEq] at hm
      subst hm
      simp [testConnection, hu, hk, hp, hinv]
  · intro hm
    cases o with
    | response err =>
      cases err with
      | none => simp [testConnection, hu, hk, hp]
      | some e => simp [ProbeOutcome.errMsg] at hm
    | thrown e => simp [ProbeOutcome.errMsg] at hm

/-- Closed instance of `probe_error_classification`: the spec's scenario —
probing `https://abc123.supabase.co` with a valid-looking key, the store
answering "relation does not exist", is classified `connected`. -/
theorem probe_error_classification_witness :
    ("https://abc123.supabase.co" : String) ≠ "" ∧
    ("validlookingkey" : String) ≠ "" ∧
    matchesUrlPattern "https://abc123.supabase.co" = true ∧
    ((∀ m, ProbeOutcome.errMsg
        (ProbeOutcome.response (some ⟨"relation \x22_test_connection_\x22 does not exist"⟩)) =
          some m →
      msgIndicatesInvalidKey m = true →
      (testConnection
        (fun _ _ =>
          ProbeOutcome.response (some ⟨"relation \x22_test_connection_\x22 does not exist"⟩))
        "https://abc123.supabase.co" "validlookingkey"
        ⟨ConnectionStatus.disconnected, none⟩).state.connectionStatus =
        ConnectionStatus.error) ∧
    (∀ m, ProbeOutcome.errMsg
        (ProbeOutcome.response (some ⟨"relation \x22_test_connection_\x22 does not exist"⟩)) =
          some m →
      msgIndicatesInvalidKey m = false →
      (testConnection
        (fun _ _ =>
          ProbeOutcome.response (some ⟨"relation \x22_test_connection_\x22 does not exist"⟩))
        "https://abc123.supabase.co" "validlookingkey"
        ⟨ConnectionStatus.disconnected, none⟩).state.connectionStatus =
        ConnectionStatus.connected) ∧
    (ProbeOutcome.errMsg
        (ProbeOutcome.response (some ⟨"relation \x22_test_connection_\x22 does not exist"⟩)) =
          none →
      (testConnection
        (fun _ _ =>
          ProbeOutcome.response (some ⟨"relation \x22_test_connection_\x22 does not exist"⟩))
        "https://abc123.supabase.co" "validlookingkey"
        ⟨ConnectionStatus.disconnected, none⟩).state.connectionStatus =
        ConnectionStatus.connected)) :=
  ⟨by decide, by decide, by decide,
    probe_error_classification
      (ProbeOutcome.response (some ⟨"relation \x22_test_connection_\x22 does not exist"⟩))
      "https://abc123.supabase.co" "validlookingkey"
      ⟨ConnectionStatus.disconnected, none⟩
      (by decide) (by decide) (by decide)⟩

/-- C4 counterexample: at `url = ""`, `key = "k"` the url does not match
the required pattern, yet the prober reports `disconnected` (the
empty-field branch), not `error`: the claim as stated fails on pairs with
an empty field. -/
theorem url_mismatch_counterexample :
    matchesUrlPattern "" = false ∧
    (testConnection (fun _ _ => ProbeOutcome.response none) "" "k"
      ⟨ConnectionStatus.disconnected, none⟩).state.connectionStatus =
      ConnectionStatus.disconnected ∧
    (testConnection (fun _ _ => ProbeOutcome.response none) "" "k"
      ⟨ConnectionStatus.disconnected, none⟩).state.connectionStatus ≠
      ConnectionStatus.error := by
  decide

/-- C4 amended: for all pairs with BOTH fields non-empty whose url does
not match `https://<[a-z0-9-]+>.supabase.co`, the prober returns `error`
with the user-facing URL-format message and performs no network call
(no transient client, no probe query). -/
theorem url_mismatch_fails_fast (probe : String → String → ProbeOutcome)
    (url key : String) (s : TCState)
    (hu : url ≠ "") (hk : key ≠ "") (hp : matchesUrlPattern url = false) :
    (testConnection probe url key s).state.connectionStatus = ConnectionStatus.error ∧
    (testConnection probe url key s).state.connectionError =
      some "Formato de URL inválido. Use: https://xxxxx.supabase.co" ∧
    (testConnection probe url key s).networkCalled = false := by
  simp [testConnection, hu, hk, hp]

/-- Closed instance of `url_mismatch_fails_fast`: the spec's wrong-scheme
scenario `http://abc123.supabase.co`. -/
theorem url_mismatch_fails_fast_witness :
    ("http://abc123.supabase.co" : String) ≠ "" ∧
    ("validlookingkey" : String) ≠ "" ∧
    matchesUrlPattern "http://abc123.supabase.co" = false ∧
    ((testConnection (fun _ _ => ProbeOutcome.response none) "http://abc123.supabase.co"
        "validlookingkey" ⟨ConnectionStatus.disconnected, none⟩).state.connectionStatus =
        ConnectionStatus.error ∧
      (testConnection (fun _ _ => ProbeOutcome.response none) "http://abc123.supabase.co"
        "validlookingkey" ⟨ConnectionStatus.disconnected, none⟩).state.connectionError =
        some "Formato de URL inválido. Use: https://xxxxx.supabase.co" ∧
      (testConnection (fun _ _ => ProbeOutcome.response none) "http://abc123.supabase.co"
        "validlookingkey" ⟨ConnectionStatus.disconnected, none⟩).networkCalled = false) :=
  ⟨by decide, by decide, by decide,
    url_mismatch_fails_fast (fun _ _ => ProbeOutcome.response none)
      "http://abc123.supabase.co" "validlookingkey"
      ⟨ConnectionStatus.disconnected, none⟩ (by decide) (by decide) (by decide)⟩

/-- Helper: `testConnection` returns `true` exactly when it leaves the
status `connected`. -/
theorem testConnection_retVal_iff_connected (probe : String → String → ProbeOutcome)
    (url key : String) (s : TCState) :
    (testConnection probe url key s).retVal = true ↔
      (testConnection probe url key s).state.connectionStatus = ConnectionStatus.connected := by
  unfold testConnection
  split
  · simp
  · split
    · simp
    · split
      · split <;> simp
      · simp
      · split <;> simp

/-- C6 counterexample: the save is blocked by the failed probe, but the
probe's error message is NOT surfaced verbatim.  The user clicks Save
before the debounced auto-test has ever run, so the render-time
`connectionError` closure value is `none`: the probe classifies the pair
as `Chave de API inválida`, yet the toast shows the generic fallback
`Não foi possível conectar ao Supabase.` instead of that message. -/
theorem save_toast_counterexample :
    (testConnection (fun _ _ => ProbeOutcome.response (some ⟨"Invalid API key"⟩))
      "https://abc.supabase.co" "k"
      ⟨ConnectionStatus.disconnected, none⟩).retVal = false ∧
    (testConnection (fun _ _ => ProbeOutcome.response (some ⟨"Invalid API key"⟩))
      "https://abc.supabase.co" "k"
      ⟨ConnectionStatus.disconnected, none⟩).state.connectionError =
      some "Chave de API inválida" ∧
    (handleSaveClientConfig (fun _ _ => ProbeOutcome.response (some ⟨"Invalid API key"⟩))
      (some "u1")
      ⟨"https://abc.supabase.co", "k", false, ConnectionStatus.disconnected, none, false⟩
      ⟨[⟨"u1", some "a@b.c", none, none⟩], [], []⟩).profileWrites = 0 ∧
    (handleSaveClientConfig (fun _ _ => ProbeOutcome.response (some ⟨"Invalid API key"⟩))
      (some "u1")
      ⟨"https://abc.supabase.co", "k", false, ConnectionStatus.disconnected, none, false⟩
      ⟨[⟨"u1", some "a@b.c", none, none⟩], [], []⟩).toasts =
      [⟨"Falha na conexão", "Não foi possível conectar ao Supabase."⟩] ∧
    (handleSaveClientConfig (fun _ _ => ProbeOutcome.response (some ⟨"Invalid API key"⟩))
      (some "u1")
      ⟨"https://abc.supabase.co", "k", false, ConnectionStatus.disconnected, none, false⟩
      ⟨[⟨"u1", some "a@b.c", none, none⟩], [], []⟩).toasts ≠
      [⟨"Falha na conexão", "Chave de API inválida"⟩] := by
  decide

/-- C6 amended: with both pointer fields filled in, the profile write of
`handleSave` is attempted only if the prober reports `connected` for the
pair, and a failed probe (return `false`) blocks the save — the store is
untouched.  The failure toast surfaces verbatim the component's
render-time `connectionError` value (the one from before this save,
e.g. the message of the last debounced auto-test) when it is set, and the
generic connection-failure message when it is `none`; the message freshly
computed by this probe is stored in component state but is not what the
toast reads. -/
theorem save_gated_on_probe (probe : String → String → ProbeOutcome)
    (uid : String) (s : ClientConfigState) (store : Store)
    (hu : s.credentials_url ≠ "") (hk : s.credentials_key ≠ "") :
    ((handleSaveClientConfig probe (some uid) s store).profileWrites ≠ 0 →
      (testConnection probe s.credentials_url s.credentials_key
        ⟨s.connectionStatus, s.connectionError⟩).state.connectionStatus =
        ConnectionStatus.connected) ∧
    ((testConnection probe s.credentials_url s.credentials_key
        ⟨s.connectionStatus, s.connectionError⟩).retVal = false →
      (handleSaveClientConfig probe (some uid) s store).profileWrites = 0 ∧
      (handleSaveClientConfig probe (some uid) s store).store = store ∧
      (handleSaveClientConfig probe (some uid) s store).toasts =
        [⟨"Falha na conexão",
          s.connectionError.getD "Não foi possível conectar ao Supabase."⟩]) := by
  have hiff := testConnection_retVal_iff_connected probe s.credentials_url s.credentials_key
    ⟨s.connectionStatus, s.connectionError⟩
  simp only [handleSaveClientConfig, if_neg (not_or.mpr ⟨hu, hk⟩)]
  cases hr : (testConnection probe s.credentials_url s.credentials_key
      ⟨s.connectionStatus, s.connectionError⟩).retVal with
  | false =>
    rw [if_pos rfl]
    exact ⟨fun hw => absurd rfl hw, fun _ => ⟨rfl, rfl, rfl⟩⟩
  | true =>
    rw [if_neg (by decide)]
    exact ⟨fun _ => hiff.mp hr, fun hfalse => absurd hfalse (by decide)⟩

/-- Closed instance of `save_gated_on_probe`: a probe answering
`Invalid API key` for `https://abc.supabase.co`, with the render-time
`connectionError` already holding the invalid-key message (the debounced
auto-test classified the same pair before the click). -/
theorem save_gated_on_probe_witness :
    (("https://abc.supabase.co" : String) ≠ "" ∧ ("k" : String) ≠ "") ∧
    (((handleSaveClientConfig (fun _ _ => ProbeOutcome.response (some ⟨"Invalid API key"⟩))
        (some "u1")
        ⟨"https://abc.supabase.co", "k", false, ConnectionStatus.error,
          some "Chave de API inválida", false⟩
        ⟨[⟨"u1", some "a@b.c", none, none⟩], [], []⟩).profileWrites ≠ 0 →
      (testConnection (fun _ _ => ProbeOutcome.response (some ⟨"Invalid API key"⟩))
        "https://abc.supabase.co" "k"
        ⟨ConnectionStatus.error, some "Chave de API inválida"⟩).state.connectionStatus =
        ConnectionStatus.connected) ∧
    ((testConnection (fun _ _ => ProbeOutcome.response (some ⟨"Invalid API key"⟩))
        "https://abc.supabase.co" "k"
        ⟨ConnectionStatus.error, some "Chave de API inválida"⟩).retVal = false →
      (handleSaveClientConfig (fun _ _ => ProbeOutcome.response (some ⟨"Invalid API key"⟩))
        (some "u1")
        ⟨"https://abc.supabase.co", "k", false, ConnectionStatus.error,
          some "Chave de API inválida", false⟩
        ⟨[⟨"u1", some "a@b.c", none, none⟩], [], []⟩).profileWrites = 0 ∧
      (handleSaveClientConfig (fun _ _ => ProbeOutcome.response (some ⟨"Invalid API key"⟩))
        (some "u1")
        ⟨"https://abc.supabase.co", "k", false, ConnectionStatus.error,
          some "Chave de API inválida", false⟩
        ⟨[⟨"u1", some "a@b.c", none, none⟩], [], []⟩).store =
        ⟨[⟨"u1", some "a@b.c", none, none⟩], [], []⟩ ∧
      (handleSaveClientConfig (fun _ _ => ProbeOutcome.response (some ⟨"Invalid API key"⟩))
        (some "u1")
        ⟨"https://abc.supabase.co", "k", false, ConnectionStatus.error,
          some "Chave de API inválida", false⟩
        ⟨[⟨"u1", some "a@b.c", none, none⟩], [], []⟩).toasts =
        [⟨"Falha na conexão",
          (some "Chave de API inválida").getD "Não foi possível conectar ao Supabase."⟩])) :=
  ⟨⟨by decide, by decide⟩,
    save_gated_on_probe (fun _ _ => ProbeOutcome.response (some ⟨"Invalid API key"⟩))
      "u1" ⟨"https://abc.supabase.co", "k", false, ConnectionStatus.error,
        some "Chave de API inválida", false⟩
      ⟨[⟨"u1", some "a@b.c", none, none⟩], [], []⟩ (by decide) (by decide)⟩

/-- C7: a Meta-credential save by a signed-in user with an empty
`pixel_id` or `access_token` is rejected with the required-fields toast
and makes no store call: state, store and credential record unchanged. -/
theorem meta_save_rejects_empty (uid : String) (s : ConfigState) (store : Store)
    (h : s.credentials.pixel_id = "" ∨ s.credentials.access_token = "") :
    handleSaveMeta (some uid) s store =
      { state := s, store := store
        toasts := [⟨"Campos obrigatórios", "Pixel ID e Access Token são obrigatórios."⟩]
        storeWrites := 0 } := by
  simp only [handleSaveMeta]
  rw [if_pos h]

/-- Closed instance of `meta_save_rejects_empty`: empty `access_token`. -/
theorem meta_save_rejects_empty_witness :
    ((⟨⟨"123", "", ""⟩, false, false⟩ : ConfigState).credentials.pixel_id = "" ∨
      (⟨⟨"123", "", ""⟩, false, false⟩ : ConfigState).credentials.access_token = "") ∧
    handleSaveMeta (some "u1") ⟨⟨"123", "", ""⟩, false, false⟩
        ⟨[], [⟨"u1", "old", none, "oldtok"⟩], []⟩ =
      { state := ⟨⟨"123", "", ""⟩, false, false⟩
        store := ⟨[], [⟨"u1", "old", none, "oldtok"⟩], []⟩
        toasts := [⟨"Campos obrigatórios", "Pixel ID e Access Token são obrigatórios."⟩]
        storeWrites := 0 } :=
  ⟨Or.inr rfl,
    meta_save_rejects_empty "u1" ⟨⟨"123", "", ""⟩, false, false⟩
      ⟨[], [⟨"u1", "old", none, "oldtok"⟩], []⟩ (Or.inr rfl)⟩

/-- C8: a disconnect by a signed-in user clears both external-store
fields on that user's profile and leaves the `meta_credentials` and
`webhook_urls` relations untouched. -/
theorem disconnect_clears_pointer_only (uid : String) (s : ClientConfigState) (store : Store) :
    (∀ p ∈ (handleDisconnect (some uid) s store).store.profiles,
      p.id = uid → p.client_supabase_url = none ∧ p.client_supabase_key = none) ∧
    (handleDisconnect (some uid) s store).store.meta_credentials = store.meta_credentials ∧
    (handleDisconnect (some uid) s store).store.webhook_urls = store.webhook_urls := by
  refine ⟨?_, rfl, rfl⟩
  intro p hp hid
  simp only [handleDisconnect, updateProfilePointer] at hp
  rcases List.mem_map.mp hp with ⟨q, hq, rfl⟩
  by_cases h : q.id = uid
  · rw [if_pos h]
    exact ⟨rfl, rfl⟩
  · rw [if_neg h] at hid
    exact absurd hid h

/-- Closed instance of `disconnect_clears_pointer_only`: a profile with a
configured pointer, one credential row and one webhook row. -/
theorem disconnect_clears_pointer_only_witness :
    (∀ p ∈ (handleDisconnect (some "u1")
        ⟨"https://abc.supabase.co", "k", false, ConnectionStatus.connected, none, true⟩
        ⟨[⟨"u1", some "a@b.c", some "https://abc.supabase.co", some "k"⟩],
         [⟨"u1", "123", none, "tok"⟩],
         [⟨"w1", "u1", "https://hook.example.com/x", none, true⟩]⟩).store.profiles,
      p.id = "u1" → p.client_supabase_url = none ∧ p.client_supabase_key = none) ∧
    (handleDisconnect (some "u1")
        ⟨"https://abc.supabase.co", "k", false, ConnectionStatus.connected, none, true⟩
        ⟨[⟨"u1", some "a@b.c", some "https://abc.supabase.co", some "k"⟩],
         [⟨"u1", "123", none, "tok"⟩],
         [⟨"w1", "u1", "https://hook.example.com/x", none, true⟩]⟩).store.meta_credentials =
      [⟨"u1", "123", none, "tok"⟩] ∧
    (handleDisconnect (some "u1")
        ⟨"https://abc.supabase.co", "k", false, ConnectionStatus.connected, none, true⟩
        ⟨[⟨"u1", some "a@b.c", some "https://abc.supabase.co", some "k"⟩],
         [⟨"u1", "123", none, "tok"⟩],
         [⟨"w1", "u1", "https://hook.example.com/x", none, true⟩]⟩).store.webhook_urls =
      [⟨"w1", "u1", "https://hook.example.com/x", none, true⟩] :=
  disconnect_clears_pointer_only "u1"
    ⟨"https://abc.supabase.co", "k", false, ConnectionStatus.connected, none, true⟩
    ⟨[⟨"u1", some "a@b.c", some "https://abc.supabase.co", some "k"⟩],
     [⟨"u1", "123", none, "tok"⟩],
     [⟨"w1", "u1", "https://hook.example.com/x", none, true⟩]⟩

/-- C10: with no signed-in user, all three handlers return immediately:
state and store unchanged, no toast, no store write, no external call. -/
theorem no_user_noop (probe : String → String → ProbeOutcome)
    (s1 s2 : ClientConfigState) (s3 : ConfigState) (st1 st2 st3 : Store) :
    handleSaveClientConfig probe none s1 st1 =
      { state := s1, store := st1, toasts := [], profileWrites := 0, externalCalls := 0 } ∧
    handleDisconnect none s2 st2 =
      { state := s2, store := st2, toasts := [], profileWrites := 0, externalCalls := 0 } ∧
    handleSaveMeta none s3 st3 =
      { state := s3, store := st3, toasts := [], storeWrites := 0 } :=
  ⟨rfl, rfl, rfl⟩

/-- C5 counterexample: an invocation whose selected user `"u1"` already
has a webhook row but whose URL field is empty is rejected by the
required-fields check with the "Campos obrigatórios" toast — not the
already-exists toast the claim states — though still with no row
written. -/
theorem add_webhook_counterexample :
    (∃ w ∈ [(⟨"w1", "u1", "https://hook.example.com/x", none, true⟩ : WebhookRow)],
        w.user_id = "u1") ∧
    (handleAddWebhook "n1" none
      ⟨[⟨"w1", "u1", "https://hook.example.com/x", none, true⟩], "u1", "", false⟩
      ⟨[], [], []⟩).toasts =
      [⟨"Campos obrigatórios", "Selecione um usuário e insira a URL do webhook."⟩] ∧
    (handleAddWebhook "n1" none
      ⟨[⟨"w1", "u1", "https://hook.example.com/x", none, true⟩], "u1", "", false⟩
      ⟨[], [], []⟩).toasts ≠
      [⟨"Usuário já possui webhook",
        "Este usuário já tem um webhook cadastrado. Delete o existente primeiro."⟩] ∧
    (handleAddWebhook "n1" none
      ⟨[⟨"w1", "u1", "https://hook.example.com/x", none, true⟩], "u1", "", false⟩
      ⟨[], [], []⟩).store = ⟨[], [], []⟩ := by
  decide

/-- C5 amended: an admin create-webhook invocation with a selected user
and a non-empty URL where the selected user already has a webhook row in
the listing is rejected with the explicit already-exists toast, and no
insert is issued: the store is unchanged. -/
theorem add_webhook_duplicate_rejected (newId : String) (createdAt : Option String)
    (s : AdminState) (store : Store)
    (hsel : s.selectedUserId ≠ "") (hurl : s.webhookUrl ≠ "")
    (hex : ∃ w ∈ s.webhooks, w.user_id = s.selectedUserId) :
    (handleAddWebhook newId createdAt s store).toasts =
      [⟨"Usuário já possui webhook",
        "Este usuário já tem um webhook cadastrado. Delete o existente primeiro."⟩] ∧
    (handleAddWebhook newId createdAt s store).store = store ∧
    (handleAddWebhook newId createdAt s store).insertCalls = 0 := by
  simp only [handleAddWebhook, if_neg (not_or.mpr ⟨hsel, hurl⟩)]
  cases hfind : s.webhooks.find? (fun w => w.user_id == s.selectedUserId) with
  | some w => exact ⟨rfl, rfl, rfl⟩
  | none =>
    exfalso
    rcases hex with ⟨w, hw, heq⟩
    have hnone := List.find?_eq_none.mp hfind w hw
    simp [heq] at hnone

/-- Closed instance of `add_webhook_duplicate_rejected`: user `"u1"`
already listed with a webhook, URL field filled in. -/
theorem add_webhook_duplicate_rejected_witness :
    (("u1" : String) ≠ "" ∧ ("https://new.example.com/y" : String) ≠ "" ∧
      ∃ w ∈ (⟨[⟨"w1", "u1", "https://hook.example.com/x", none, true⟩], "u1",
              "https://new.example.com/y", false⟩ : AdminState).webhooks,
        w.user_id = "u1") ∧
    ((handleAddWebhook "n1" none
        ⟨[⟨"w1", "u1", "https://hook.example.com/x", none, true⟩], "u1",
          "https://new.example.com/y", false⟩ ⟨[], [], []⟩).toasts =
      [⟨"Usuário já possui webhook",
        "Este usuário já tem um webhook cadastrado. Delete o existente primeiro."⟩] ∧
    (handleAddWebhook "n1" none
        ⟨[⟨"w1", "u1", "https://hook.example.com/x", none, true⟩], "u1",
          "https://new.example.com/y", false⟩ ⟨[], [], []⟩).store = ⟨[], [], []⟩ ∧
    (handleAddWebhook "n1" none
        ⟨[⟨"w1", "u1", "https://hook.example.com/x", none, true⟩], "u1",
          "https://new.example.com/y", false⟩ ⟨[], [], []⟩).insertCalls = 0) :=
  ⟨⟨by decide, by decide, by decide⟩,
    add_webhook_duplicate_rejected "n1" none
      ⟨[⟨"w1", "u1", "https://hook.example.com/x", none, true⟩], "u1",
        "https://new.example.com/y", false⟩ ⟨[], [], []⟩
      (by decide) (by decide) (by decide)⟩

/-- Helper: the per-row update function of the `meta_credentials` update
branch never changes `user_id`. -/
theorem metaUpdate_preserves_user_id (uid : String) (c : MetaFormState) (row : MetaCredRow) :
    ((fun row => if row.user_id = uid then
        { row with pixel_id := c.pixel_id, page_id := pageIdOrNull c.page_id
                   access_token := c.access_token }
      else row) row).user_id = row.user_id := by
  by_cases h : row.user_id = uid <;> simp [h]

/-- Helper: filtering on `user_id` commutes with mapping a
`user_id`-preserving function. -/
theorem filter_map_keyPreserving (l : List MetaCredRow) (uid : String)
    (f : MetaCredRow → MetaCredRow) (hf : ∀ row, (f row).user_id = row.user_id) :
    (l.map f).filter (fun r => r.user_id == uid) =
      (l.filter (fun r => r.user_id == uid)).map f := by
  induction l with
  | nil => rfl
  | cons a l ih =>
    simp only [List.map_cons, List.filter_cons, hf a]
    by_cases h : (a.user_id == uid) = true
    · simp [h, ih]
    · simp [h, ih]

/-- Helper: one save through the update branch, from a state whose
listing holds exactly one row for the user, rewrites that row to the
form's values and leaves the flag set. -/
theorem meta_save_update_step (uid : String) (s : ConfigState) (store : Store)
    (r0 : MetaCredRow)
    (hp : s.credentials.pixel_id ≠ "") (ht : s.credentials.access_token ≠ "")
    (hex : s.hasExistingCredentials = true)
    (h1 : rowsFor store uid = [r0]) :
    rowsFor (handleSaveMeta (some uid) s store).store uid = [metaTarget uid s.credentials] ∧
    (handleSaveMeta (some uid) s store).state.credentials = s.credentials ∧
    (handleSaveMeta (some uid) s store).state.hasExistingCredentials = true := by
  have hne := not_or.mpr ⟨hp, ht⟩
  have hr0mem : r0 ∈ rowsFor store uid := by rw [h1]; exact List.mem_singleton.mpr rfl
  have hr0 : r0.user_id = uid := by
    have h := (List.mem_filter.mp hr0mem).2
    simpa using h
  simp only [handleSaveMeta, if_neg hne]
  rw [if_pos hex]
  refine ⟨?_, rfl, hex⟩
  simp only [rowsFor] at h1 ⊢
  rw [filter_map_keyPreserving _ uid _ (metaUpdate_preserves_user_id uid s.credentials), h1]
  obtain ⟨u0, p0, g0, t0⟩ := r0
  simp only at hr0
  subst hr0
  simp [metaTarget]

/-- Helper: one save through the insert branch, from a state with no row
for the user, appends exactly the target row and flips the flag. -/
theorem meta_save_insert_step (uid : String) (s : ConfigState) (store : Store)
    (hp : s.credentials.pixel_id ≠ "") (ht : s.credentials.access_token ≠ "")
    (hex : s.hasExistingCredentials = false)
    (h0 : rowsFor store uid = []) :
    rowsFor (handleSaveMeta (some uid) s store).store uid = [metaTarget uid s.credentials] ∧
    (handleSaveMeta (some uid) s store).state.credentials = s.credentials ∧
    (handleSaveMeta (some uid) s store).state.hasExistingCredentials = true := by
  have hne := not_or.mpr ⟨hp, ht⟩
  simp only [handleSaveMeta, if_neg hne]
  rw [if_neg (by simp [hex])]
  refine ⟨?_, rfl, rfl⟩
  simp only [rowsFor] at h0 ⊢
  rw [List.filter_append, h0]
  simp [metaTarget]

/-- C9: upsert idempotence.  From a state consistent with the store (the
`hasExistingCredentials` flag counts the user's rows), saving the same
valid credential twice leaves exactly one `meta_credentials` row for the
user, whose fields equal the last-saved values: the second save updates
in place instead of inserting a second row. -/
theorem meta_upsert_idempotent (uid : String) (s : ConfigState) (store : Store)
    (hp : s.credentials.pixel_id ≠ "") (ht : s.credentials.access_token ≠ "")
    (hcons : (rowsFor store uid).length = (if s.hasExistingCredentials then 1 else 0)) :
    rowsFor (handleSaveMeta (some uid)
        (handleSaveMeta (some uid) s store).state
        (handleSaveMeta (some uid) s store).store).store uid =
      [metaTarget uid s.credentials] := by
  cases hex : s.hasExistingCredentials with
  | true =>
    rw [hex, if_pos rfl] at hcons
    obtain ⟨r0, h1⟩ := List.length_eq_one.mp hcons
    obtain ⟨ha, hb, hc⟩ := meta_save_update_step uid s store r0 hp ht hex h1
    have h2 := meta_save_update_step uid (handleSaveMeta (some uid) s store).state
        (handleSaveMeta (some uid) s store).store (metaTarget uid s.credentials)
        (by rw [hb]; exact hp) (by rw [hb]; exact ht) hc ha
    rw [hb] at h2
    exact h2.1
  | false =>
    rw [hex, if_neg (by decide)] at hcons
    have h0 := List.length_eq_zero.mp hcons
    obtain ⟨ha, hb, hc⟩ := meta_save_insert_step uid s store hp ht hex h0
    have h2 := meta_save_update_step uid (handleSaveMeta (some uid) s store).state
        (handleSaveMeta (some uid) s store).store (metaTarget uid s.credentials)
        (by rw [hb]; exact hp) (by rw [hb]; exact ht) hc ha
    rw [hb] at h2
    exact h2.1

/-- Closed instance of `meta_upsert_idempotent`: a fresh user saving
`pixel_id = "123"`, `access_token = "tok"` twice ends with the single row
for that user holding those values. -/
theorem meta_upsert_idempotent_witness :
    ((⟨⟨"123", "", "tok"⟩, false, false⟩ : ConfigState).credentials.pixel_id ≠ "" ∧
      (⟨⟨"123", "", "tok"⟩, false, false⟩ : ConfigState).credentials.access_token ≠ "" ∧
      (rowsFor ⟨[], [], []⟩ "u1").length =
        (if (⟨⟨"123", "", "tok"⟩, false, false⟩ : ConfigState).hasExistingCredentials
          then 1 else 0)) ∧
    rowsFor (handleSaveMeta (some "u1")
        (handleSaveMeta (some "u1") ⟨⟨"123", "", "tok"⟩, false, false⟩ ⟨[], [], []⟩).state
        (handleSaveMeta (some "u1") ⟨⟨"123", "", "tok"⟩, false, false⟩ ⟨[], [], []⟩).store).store
        "u1" =
      [metaTarget "u1" ⟨"123", "", "tok"⟩] :=
  ⟨⟨by decide, by decide, by decide⟩,
    meta_upsert_idempotent "u1" ⟨⟨"123", "", "tok"⟩, false, false⟩ ⟨[], [], []⟩
      (by decide) (by decide) (by decide)⟩
